import Mathlib

/-!
Shallow embedding of `src/search.py` (class `Search`, methods `gpt` and `web`)
from the bright-data SDK helper module.

Python dynamic values are modelled by `PyVal`: the value shapes this module
manipulates are `None`, booleans, integers, strings and lists.  Python
truthiness, `isinstance` checks and `re.match(r"^[A-Z]{2}$", s)` semantics are
embedded explicitly.  The external collaborator call
`self._c.chatgpt_api.scrape_chatgpt(...)` is modelled as an oracle
`DelegateArgs → Nat → CallOutcome` giving the outcome of each attempt, so the
retry loop (lines 81-97) becomes a fueled recursion whose result records how
many delegate invocations happened and which sleeps were performed.
-/

/-- Universe of Python values handled by the module under verification. -/
inductive PyVal where
  | none : PyVal
  | bool (b : Bool) : PyVal
  | int (n : Int) : PyVal
  | str (s : String) : PyVal
  | list (xs : List PyVal) : PyVal


/-- Python truthiness (`if x:`) for the embedded value shapes. -/
def pyTruthy : PyVal → Bool
  | .none => false
  | .bool b => b
  | .int n => n != 0
  | .str s => !s.isEmpty
  | .list xs => !xs.isEmpty

/-- Python `isinstance(x, str)`. -/
def pyIsStr : PyVal → Bool
  | .str _ => true
  | _ => false

/-- Python `isinstance(x, int)`: booleans are a subtype of int in Python. -/
def pyIsInt : PyVal → Bool
  | .int _ => true
  | .bool _ => true
  | _ => false

/-- Numeric value of a Python int-like value (`True` is 1, `False` is 0). -/
def pyIntVal : PyVal → Int
  | .int n => n
  | .bool b => if b then 1 else 0
  | _ => 0

/-- Uppercase ASCII letter test, the character class `[A-Z]`. -/
def isUpperAZ (c : Char) : Bool := 'A' ≤ c && c ≤ 'Z'

/-- Truthiness of Python `re.match(r"^[A-Z]{2}$", s)`: two uppercase ASCII
letters, where `$` also matches just before one trailing newline. -/
def countryMatch (s : String) : Bool :=
  match s.data with
  | [a, b] => isUpperAZ a && isUpperAZ b
  | [a, b, c] => isUpperAZ a && isUpperAZ b && c == '\n'
  | _ => false

/-- Errors the `gpt` validation phase can raise: `ValidationError` with its
message, or a Python `TypeError` (from `re.match` applied to a truthy
non-string country entry). -/
inductive GptError where
  | validation (msg : String) : GptError
  | typeErr : GptError


/-- Message of line 46 of the source. -/
def promptErrMsg : String :=
  "Invalid prompt input: must be a non-empty string or list of strings."

/-- The check `isinstance(prompt, list) and all(isinstance(p, str) for p in prompt)`
together with the extraction of the underlying strings. -/
def asStrList : List PyVal → Option (List String)
  | [] => some []
  | .str s :: rest => (asStrList rest).map (fun l => s :: l)
  | _ => Option.none

/-- Prompt normalization, lines 41-46: a string becomes a singleton list, a
list of strings is taken as is, anything else is a `ValidationError`. -/
def promptNorm : PyVal → Except GptError (List String)
  | .str s => .ok [s]
  | .list xs =>
    match asStrList xs with
    | some ps => .ok ps
    | Option.none => .error (.validation promptErrMsg)
  | _ => .error (.validation promptErrMsg)

/-- The inner helper `_normalize(param, name)` of `Search.gpt`, lines 52-59:
`None` broadcasts to `n` copies of `None`, a list must have length exactly
`n`, and any other value is replicated `n` times. -/
def normalizeParam (param : PyVal) (name : String) (n : Nat) :
    Except GptError (List PyVal) :=
  match param with
  | .none => .ok (List.replicate n .none)
  | .list xs =>
    if xs.length = n then .ok xs
    else .error (.validation (name ++ " list must have the same length as prompts."))
  | p => .ok (List.replicate n p)

/-- Country entry check, lines 66-68: a falsy entry is skipped; a truthy string
must match `^[A-Z]{2}$`; `re.match` on a truthy non-string raises `TypeError`. -/
def checkCountry (c : PyVal) : Except GptError Unit :=
  if pyTruthy c then
    match c with
    | .str s =>
      if countryMatch s then .ok ()
      else .error (.validation ("Invalid country code " ++ s ++ ". Must be 2 uppercase letters."))
    | _ => .error .typeErr
  else .ok ()

/-- Secondary prompt entry check, lines 69-71. -/
def checkSecondary : PyVal → Except GptError Unit
  | .none => .ok ()
  | .str _ => .ok ()
  | _ => .error (.validation "Secondary prompts must be strings.")

/-- Web search entry check, lines 72-74: entries must be `bool` instances. -/
def checkWebSearch : PyVal → Except GptError Unit
  | .bool _ => .ok ()
  | _ => .error (.validation "Web search flags must be boolean.")

/-- Run a per-entry check over a list, stopping at the first error, the way
the source `for` loops raise on the first offending entry. -/
def checkAll (f : PyVal → Except GptError Unit) : List PyVal → Except GptError Unit
  | [] => .ok ()
  | c :: cs =>
    match f c with
    | .ok _ => checkAll f cs
    | .error e => .error e

/-- The timeout guard of line 75: `timeout is not None and
(not isinstance(timeout, int) or timeout <= 0)`. -/
def timeoutInvalid : PyVal → Bool
  | .none => false
  | t => !pyIsInt t || decide (pyIntVal t ≤ 0)

/-- Line 78: `timeout = timeout or (65 if sync else 30)`. -/
def resolveTimeout (timeout : PyVal) (sync : Bool) : PyVal :=
  if pyTruthy timeout then timeout else .int (if sync then 65 else 30)

/-- The keyword arguments handed to `scrape_chatgpt` on lines 85-92. -/
structure DelegateArgs where
  prompts : List String
  countries : List PyVal
  additional_prompts : List PyVal
  web_searches : List PyVal
  sync : Bool
  timeout : PyVal


/-- The validation and normalization phase of `Search.gpt`, lines 41-78:
either a raised error, or the exact argument record the delegate call will
receive. -/
def gptValidate (prompt country secondaryPrompt webSearch : PyVal) (sync : Bool)
    (timeout : PyVal) : Except GptError DelegateArgs :=
  match promptNorm prompt with
  | .error e => .error e
  | .ok prompts =>
  if prompts.isEmpty then .error (.validation "At least one prompt is required.")
  else
  match normalizeParam country "country" prompts.length with
  | .error e => .error e
  | .ok countries =>
  match normalizeParam secondaryPrompt "secondary_prompt" prompts.length with
  | .error e => .error e
  | .ok secondary_prompts =>
  match normalizeParam webSearch "web_search" prompts.length with
  | .error e => .error e
  | .ok web_searches =>
  match checkAll checkCountry countries with
  | .error e => .error e
  | .ok _ =>
  match checkAll checkSecondary secondary_prompts with
  | .error e => .error e
  | .ok _ =>
  match checkAll checkWebSearch web_searches with
  | .error e => .error e
  | .ok _ =>
  if timeoutInvalid timeout then .error (.validation "Timeout must be a positive integer.")
  else .ok ⟨prompts, countries, secondary_prompts, web_searches, sync,
            resolveTimeout timeout sync⟩

/-- Outcome of one delegate invocation: a returned value, an `APIError`
(identified by a tag), or an exception of any other type (also tagged). -/
inductive CallOutcome where
  | ok (v : PyVal) : CallOutcome
  | apiError (e : Nat) : CallOutcome
  | otherError (e : Nat) : CallOutcome


/-- Line 81: `max_retries = 3`. -/
def max_retries : Nat := 3

/-- What the retry loop produced in the end. -/
inductive RunResult where
  | value (v : PyVal) : RunResult
  | apiError (e : Nat) : RunResult
  | otherError (e : Nat) : RunResult


/-- The retry loop of lines 82-97, as a fueled recursion over the remaining
loop iterations.  Returns the final result, the number of delegate
invocations made, and the list of sleep durations (seconds) performed.
Exhausted fuel corresponds to the Python `for` loop completing without a
`return`, which implicitly returns `None`; with `max_retries = 3` fuel never
runs out before a terminal outcome. -/
def retryAux (d : Nat → CallOutcome) : Nat → Nat → RunResult × Nat × List Nat
  | _, 0 => (.value .none, 0, [])
  | attempt, fuel + 1 =>
    match d attempt with
    | .ok v => (.value v, 1, [])
    | .otherError e => (.otherError e, 1, [])
    | .apiError e =>
      if attempt < max_retries - 1 then
        let r := retryAux d (attempt + 1) fuel
        (r.1, r.2.1 + 1, 2 :: r.2.2)
      else (.apiError e, 1, [])

/-- Observable outcome of a whole `Search.gpt` call: a raised validation
error (no delegate interaction), a raised `TypeError`, or a delegate
interaction with its argument record, invocation count, sleeps, and final
returned value or propagated exception. -/
inductive GptResult where
  | validationError (msg : String) : GptResult
  | typeError : GptResult
  | value (args : DelegateArgs) (calls : Nat) (sleeps : List Nat) (v : PyVal) : GptResult
  | apiError (args : DelegateArgs) (calls : Nat) (sleeps : List Nat) (e : Nat) : GptResult
  | otherError (args : DelegateArgs) (calls : Nat) (sleeps : List Nat) (e : Nat) : GptResult


/-- `Search.gpt`, lines 15-97: validation phase then retry loop around the
delegate oracle `d`. -/
def gpt (prompt country secondaryPrompt webSearch : PyVal) (sync : Bool)
    (timeout : PyVal) (d : DelegateArgs → Nat → CallOutcome) : GptResult :=
  match gptValidate prompt country secondaryPrompt webSearch sync timeout with
  | .error (.validation msg) => .validationError msg
  | .error .typeErr => .typeError
  | .ok args =>
    match retryAux (d args) 0 max_retries with
    | (.value v, n, s) => .value args n s v
    | (.apiError e, n, s) => .apiError args n s e
    | (.otherError e, n, s) => .otherError args n s e

/-- Number of delegate invocations a `gpt` outcome involved. -/
def resultCalls : GptResult → Nat
  | .validationError _ => 0
  | .typeError => 0
  | .value _ n _ _ => n
  | .apiError _ n _ _ => n
  | .otherError _ n _ _ => n

/-- The embedding client configuration read by `Search.web`, lines 115-116. -/
structure Client where
  serp_zone : PyVal
  DEFAULT_MAX_WORKERS : PyVal


/-- Errors `Search.web` can raise before delegating: the three `ValueError`
kinds (null/empty query, whitespace-only string, malformed list element) and
the `TypeError` for a wrong query type. -/
inductive WebError where
  | emptyQuery : WebError
  | whitespaceQuery : WebError
  | listQuery : WebError
  | wrongType : WebError


/-- The positional arguments handed to `search_api.search` on lines 129-131. -/
structure WebArgs where
  query : PyVal
  search_engine : String
  zone : PyVal
  response_format : String
  method : String
  country : String
  data_format : String
  async_request : Bool
  max_workers : PyVal
  timeout : PyVal
  parse : Bool


/-- Whitespace characters removed by Python `str.strip()` (ASCII range). -/
def isPySpace (c : Char) : Bool :=
  c == ' ' || c == '\t' || c == '\n' || c == '\r' || c == '\x0b' || c == '\x0c'

/-- Python `str.strip()`: drop leading and trailing whitespace. -/
def pyStrip (s : String) : String :=
  ⟨((s.data.dropWhile isPySpace).reverse.dropWhile isPySpace).reverse⟩

/-- List element test of line 124: `isinstance(q, str) and q.strip()`. -/
def webQueryElemOk : PyVal → Bool
  | .str s => !(pyStrip s).isEmpty
  | _ => false

/-- `Search.web`, lines 100-132: zone and worker defaulting, query
validation, then delegation; the result records the exact argument tuple the
delegate receives (its return value is passed through unmodified). -/
def web (c : Client) (query : PyVal) (search_engine : String) (zone : PyVal)
    (response_format : String) (method : String) (country : String)
    (data_format : String) (async_request : Bool) (max_workers : PyVal)
    (timeout : PyVal) (parse : Bool) : Except WebError WebArgs :=
  let zone2 := if pyTruthy zone then zone else c.serp_zone
  let mw2 := if pyTruthy max_workers then max_workers else c.DEFAULT_MAX_WORKERS
  if pyTruthy query = false then .error .emptyQuery
  else
    match query with
    | .str s =>
      if (pyStrip s).isEmpty then .error .whitespaceQuery
      else .ok ⟨query, search_engine, zone2, response_format, method, country,
                data_format, async_request, mw2, timeout, parse⟩
    | .list qs =>
      if qs.all webQueryElemOk then
        .ok ⟨query, search_engine, zone2, response_format, method, country,
             data_format, async_request, mw2, timeout, parse⟩
      else .error .listQuery
    | _ => .error .wrongType

/-- Delegate arguments `gpt` builds for the single prompt "hi" with every
other parameter left at its default. -/
def argsHi : DelegateArgs :=
  ⟨["hi"], [.none], [.none], [.bool false], true, .int 65⟩

theorem gptValidate_hi :
    gptValidate (.str "hi") .none .none (.bool false) true .none = .ok argsHi := rfl

theorem asStrList_map_str (ps : List String) :
    asStrList (ps.map PyVal.str) = some ps := by
  induction ps with
  | nil => rfl
  | cons p ps ih => simp [asStrList, ih]

theorem checkAll_ok_iff (f : PyVal → Except GptError Unit) (l : List PyVal) :
    checkAll f l = .ok () ↔ ∀ x ∈ l, f x = .ok () := by
  induction l with
  | nil => simp [checkAll]
  | cons c cs ih => cases h : f c <;> simp [checkAll, h, ih]

theorem checkAll_error_of (f : PyVal → Except GptError Unit) (e : GptError)
    (l : List PyVal) (hall : ∀ x ∈ l, f x = .ok () ∨ f x = .error e)
    (hbad : ∃ x ∈ l, f x = .error e) : checkAll f l = .error e := by
  induction l with
  | nil => simp at hbad
  | cons c cs ih =>
    rcases hall c (by simp) with hc | hc
    · have : ∃ x ∈ cs, f x = .error e := by
        rcases hbad with ⟨x, hx, hfx⟩
        rcases List.mem_cons.mp hx with rfl | hx
        · rw [hc] at hfx; cases hfx
        · exact ⟨x, hx, hfx⟩
      simp [checkAll, hc]
      exact ih (fun x hx => hall x (List.mem_cons_of_mem c hx)) this
    · simp [checkAll, hc]

/-- C1: for `gpt(prompt=["hi","bye"], country="US", webSearch=[True, False])`
with defaults otherwise, when the first delegate attempt does not raise
`APIError`, the delegate is invoked exactly once with
`prompts=["hi","bye"]`, `countries=["US","US"]`,
`additional_prompts=[None, None]`, `web_searches=[True, False]`, and `gpt`
returns the delegate result unmodified. -/
theorem gpt_example_broadcast (d : DelegateArgs → Nat → CallOutcome) (v : PyVal)
    (h : d ⟨["hi", "bye"], [.str "US", .str "US"], [.none, .none],
            [.bool true, .bool false], true, .int 65⟩ 0 = .ok v) :
    gpt (.list [.str "hi", .str "bye"]) (.str "US") .none
        (.list [.bool true, .bool false]) true .none d =
      .value ⟨["hi", "bye"], [.str "US", .str "US"], [.none, .none],
              [.bool true, .bool false], true, .int 65⟩ 1 [] v := by
  have hv : gptValidate (.list [.str "hi", .str "bye"]) (.str "US") .none
      (.list [.bool true, .bool false]) true .none =
      .ok ⟨["hi", "bye"], [.str "US", .str "US"], [.none, .none],
           [.bool true, .bool false], true, .int 65⟩ := rfl
  simp [gpt, hv, retryAux, max_retries, h]

/-- Witness for C1 at a concrete delegate succeeding on the first attempt. -/
theorem gpt_example_broadcast_witness :
    gpt (.list [.str "hi", .str "bye"]) (.str "US") .none
        (.list [.bool true, .bool false]) true .none (fun _ _ => .ok (.int 42)) =
      .value ⟨["hi", "bye"], [.str "US", .str "US"], [.none, .none],
              [.bool true, .bool false], true, .int 65⟩ 1 [] (.int 42) :=
  gpt_example_broadcast (fun _ _ => .ok (.int 42)) (.int 42) rfl

/-- C2: the delegate call in `gpt` is attempted at most 3 times.  Each
`APIError` attempt with attempts remaining is followed by a fixed 2-second
sleep and a retry; after the third failed attempt the `APIError` is
re-raised unchanged with no fourth attempt; an exception of any other type
propagates immediately with no further retry or sleep; two `APIError`
attempts followed by a success return the third call result with exactly
two intervening 2-second delays. -/
theorem gpt_retry_policy (d : DelegateArgs → Nat → CallOutcome) (v : PyVal)
    (e0 e1 e2 f : Nat) :
    (d argsHi 0 = .apiError e0 → d argsHi 1 = .apiError e1 → d argsHi 2 = .ok v →
      gpt (.str "hi") .none .none (.bool false) true .none d =
        .value argsHi 3 [2, 2] v) ∧
    (d argsHi 0 = .apiError e0 → d argsHi 1 = .apiError e1 →
      d argsHi 2 = .apiError e2 →
      gpt (.str "hi") .none .none (.bool false) true .none d =
        .apiError argsHi 3 [2, 2] e2) ∧
    (d argsHi 0 = .otherError f →
      gpt (.str "hi") .none .none (.bool false) true .none d =
        .otherError argsHi 1 [] f) ∧
    (d argsHi 0 = .apiError e0 → d argsHi 1 = .otherError f →
      gpt (.str "hi") .none .none (.bool false) true .none d =
        .otherError argsHi 2 [2] f) := by
  refine ⟨fun h0 h1 h2 => ?_, fun h0 h1 h2 => ?_, fun h0 => ?_, fun h0 h1 => ?_⟩ <;>
    simp [gpt, gptValidate_hi, retryAux, max_retries, h0]
  · simp [h1, h2]
  · simp [h1, h2]
  · simp [h1]

/-- Witness for C2 at four concrete delegates, one per scenario. -/
theorem gpt_retry_policy_witness :
    (gpt (.str "hi") .none .none (.bool false) true .none
        (fun _ n => if n < 2 then .apiError 7 else .ok (.int 9)) =
      .value argsHi 3 [2, 2] (.int 9)) ∧
    (gpt (.str "hi") .none .none (.bool false) true .none
        (fun _ _ => .apiError 7) =
      .apiError argsHi 3 [2, 2] 7) ∧
    (gpt (.str "hi") .none .none (.bool false) true .none
        (fun _ _ => .otherError 5) =
      .otherError argsHi 1 [] 5) ∧
    (gpt (.str "hi") .none .none (.bool false) true .none
        (fun _ n => if n = 0 then .apiError 7 else .otherError 5) =
      .otherError argsHi 2 [2] 5) :=
  ⟨(gpt_retry_policy (fun _ n => if n < 2 then .apiError 7 else .ok (.int 9))
      (.int 9) 7 7 0 0).1 rfl rfl rfl,
   (gpt_retry_policy (fun _ _ => .apiError 7) .none 7 7 7 0).2.1 rfl rfl rfl,
   (gpt_retry_policy (fun _ _ => .otherError 5) .none 0 0 0 5).2.2.1 rfl,
   (gpt_retry_policy (fun _ n => if n = 0 then .apiError 7 else .otherError 5)
      .none 7 0 0 5).2.2.2 rfl rfl⟩

theorem checkAll_replicate_ok (f : PyVal → Except GptError Unit) (x : PyVal)
    (hx : f x = .ok ()) (n : Nat) : checkAll f (List.replicate n x) = .ok () := by
  induction n with
  | zero => rfl
  | succ n ih => simp [List.replicate, checkAll, hx, ih]

/-- C3: for every prompt list of length N and every companion parameter
(country, secondaryPrompt, webSearch) given as a list of length M ≠ N,
`gpt` raises `ValidationError` before any delegate call (for every
delegate, the same error is returned and the delegate is never invoked);
a non-list companion value is replicated into a list of length N, and
`None` becomes a list of N `None` entries. -/
theorem gpt_companion_broadcast (ps : List String) (hps : ps ≠ [])
    (xs : List PyVal) (hlen : xs.length ≠ ps.length)
    (d : DelegateArgs → Nat → CallOutcome) :
    (gpt (.list (ps.map .str)) (.list xs) .none (.bool false) true .none d =
      .validationError "country list must have the same length as prompts.") ∧
    (gpt (.list (ps.map .str)) .none (.list xs) (.bool false) true .none d =
      .validationError "secondary_prompt list must have the same length as prompts.") ∧
    (gpt (.list (ps.map .str)) .none .none (.list xs) true .none d =
      .validationError "web_search list must have the same length as prompts.") ∧
    (∀ (p : PyVal) (n : Nat) (name : String), (∀ ys, p ≠ .list ys) → p ≠ .none →
      normalizeParam p name n = .ok (List.replicate n p)) ∧
    (∀ (n : Nat) (name : String),
      normalizeParam .none name n = .ok (List.replicate n .none)) := by
  refine ⟨?_, ?_, ?_, ?_, ?_⟩
  · simp [gpt, gptValidate, promptNorm, asStrList_map_str, hps, normalizeParam, hlen]
  · simp [gpt, gptValidate, promptNorm, asStrList_map_str, hps, normalizeParam, hlen,
      checkAll_replicate_ok checkCountry .none rfl]
  · simp [gpt, gptValidate, promptNorm, asStrList_map_str, hps, normalizeParam, hlen,
      checkAll_replicate_ok checkCountry .none rfl,
      checkAll_replicate_ok checkSecondary .none rfl]
  · intro p n name hl hn
    cases p with
    | none => exact absurd rfl hn
    | list ys => exact absurd rfl (hl ys)
    | bool b => rfl
    | int m => rfl
    | str s => rfl
  · intro n name
    rfl

/-- Witness for C3: prompts of length 1, companion lists of length 2, and a
scalar replicated to length 2. -/
theorem gpt_companion_broadcast_witness :
    (gpt (.list [.str "a"]) (.list [.none, .none]) .none (.bool false) true .none
        (fun _ _ => .ok .none) =
      .validationError "country list must have the same length as prompts.") ∧
    (gpt (.list [.str "a"]) .none (.list [.none, .none]) (.bool false) true .none
        (fun _ _ => .ok .none) =
      .validationError "secondary_prompt list must have the same length as prompts.") ∧
    (gpt (.list [.str "a"]) .none .none (.list [.none, .none]) true .none
        (fun _ _ => .ok .none) =
      .validationError "web_search list must have the same length as prompts.") ∧
    (normalizeParam (.int 3) "country" 2 = .ok (List.replicate 2 (.int 3))) ∧
    (normalizeParam .none "country" 2 = .ok (List.replicate 2 .none)) :=
  have h := gpt_companion_broadcast ["a"] (by simp) [.none, .none] (by simp)
    (fun _ _ => .ok .none)
  ⟨h.1, h.2.1, h.2.2.1,
   h.2.2.2.1 (.int 3) 2 "country" (fun ys hy => nomatch hy) (fun hn => nomatch hn),
   h.2.2.2.2 2 "country"⟩

/-- C4 counterexample: `gpt(prompt="")` is accepted, not rejected: the call
validates, delegates once with `prompts=[""]`, and returns the delegate
result, so an accepted call can contain an empty prompt string. -/
theorem gpt_empty_prompt_accepted :
    gpt (.str "") .none .none (.bool false) true .none (fun _ _ => .ok (.int 1)) =
      .value ⟨[""], [.none], [.none], [.bool false], true, .int 65⟩ 1 [] (.int 1) := rfl

theorem asStrList_eq_none (xs : List PyVal) (h : ∃ y ∈ xs, ∀ s, y ≠ .str s) :
    asStrList xs = Option.none := by
  induction xs with
  | nil => simp at h
  | cons x xs ih =>
    rcases h with ⟨y, hy, hne⟩
    rcases List.mem_cons.mp hy with rfl | hy2
    · cases y with
      | str s => exact absurd rfl (hne s)
      | none => rfl
      | bool b => rfl
      | int n => rfl
      | list l => rfl
    · cases x with
      | str s => simp [asStrList, ih ⟨y, hy2, hne⟩]
      | none => rfl
      | bool b => rfl
      | int n => rfl
      | list l => rfl

/-- C4 (amended): a prompt argument that is an empty list, a list containing
a non-string, or any shape other than a string or a list of strings raises
`ValidationError`; individual prompt strings are not checked for emptiness,
so an accepted call may carry empty prompt strings. -/
theorem gpt_prompt_shape (xs : List PyVal) (x : PyVal)
    (d : DelegateArgs → Nat → CallOutcome) :
    (gpt (.list []) .none .none (.bool false) true .none d =
      .validationError "At least one prompt is required.") ∧
    ((∃ y ∈ xs, ∀ s, y ≠ .str s) →
      gpt (.list xs) .none .none (.bool false) true .none d =
        .validationError promptErrMsg) ∧
    ((∀ s, x ≠ .str s) → (∀ ys, x ≠ .list ys) →
      gpt x .none .none (.bool false) true .none d =
        .validationError promptErrMsg) := by
  refine ⟨rfl, fun h => ?_, fun hs hl => ?_⟩
  · simp [gpt, gptValidate, promptNorm, asStrList_eq_none xs h]
  · cases x with
    | str s => exact absurd rfl (hs s)
    | list ys => exact absurd rfl (hl ys)
    | none => rfl
    | bool b => rfl
    | int n => rfl

/-- Witness for C4 (amended) at an empty list, a list holding an integer, and
a `None` prompt. -/
theorem gpt_prompt_shape_witness :
    (gpt (.list []) .none .none (.bool false) true .none (fun _ _ => .ok .none) =
      .validationError "At least one prompt is required.") ∧
    (gpt (.list [.int 3]) .none .none (.bool false) true .none (fun _ _ => .ok .none) =
      .validationError promptErrMsg) ∧
    (gpt .none .none .none (.bool false) true .none (fun _ _ => .ok .none) =
      .validationError promptErrMsg) :=
  have h := gpt_prompt_shape [.int 3] .none (fun _ _ => .ok .none)
  ⟨h.1, h.2.1 ⟨.int 3, by simp, fun s hs => nomatch hs⟩,
   h.2.2 (fun s hs => nomatch hs) (fun ys hy => nomatch hy)⟩

/-- C5: a truthy broadcast country entry raises `ValidationError` exactly
when it does not satisfy `re.match(r"^[A-Z]{2}$", ...)` (two uppercase
ASCII letters; Python `$` also accepts one trailing newline), and is
accepted otherwise; null or empty-string entries are never checked; the
examples "us", "USA" and "1A" all fail. -/
theorem gpt_country_validation (s : String)
    (d : DelegateArgs → Nat → CallOutcome) :
    (s ≠ "" → countryMatch s = false →
      gpt (.str "hi") (.str s) .none (.bool false) true .none d =
        .validationError
          ("Invalid country code " ++ s ++ ". Must be 2 uppercase letters.")) ∧
    (countryMatch s = true →
      gptValidate (.str "hi") (.str s) .none (.bool false) true .none =
        .ok ⟨["hi"], [.str s], [.none], [.bool false], true, .int 65⟩) ∧
    (gptValidate (.str "hi") (.str "") .none (.bool false) true .none =
      .ok ⟨["hi"], [.str ""], [.none], [.bool false], true, .int 65⟩) ∧
    (gptValidate (.str "hi") .none .none (.bool false) true .none = .ok argsHi) ∧
    (countryMatch "us" = false ∧ countryMatch "USA" = false ∧
      countryMatch "1A" = false) := by
  refine ⟨fun hne hcm => ?_, fun hcm => ?_, rfl, rfl, rfl, rfl, rfl⟩
  · have hie : s.isEmpty = false := by
      cases hi : s.isEmpty
      · rfl
      · exact absurd ((String.isEmpty_iff s).mp hi) hne
    simp [gpt, gptValidate, promptNorm, normalizeParam, checkAll, checkCountry,
      pyTruthy, hie, hcm]
  · have hie : s.isEmpty = false := by
      cases hi : s.isEmpty
      · rfl
      · rw [(String.isEmpty_iff s).mp hi] at hcm; cases hcm
    simp [gptValidate, promptNorm, normalizeParam, checkAll, checkCountry,
      checkSecondary, checkWebSearch, pyTruthy, hie, hcm, timeoutInvalid,
      resolveTimeout]

/-- Witness for C5 at the failing code "Us" and the accepted code "US". -/
theorem gpt_country_validation_witness :
    (gpt (.str "hi") (.str "Us") .none (.bool false) true .none
        (fun _ _ => .ok .none) =
      .validationError
        ("Invalid country code " ++ "Us" ++ ". Must be 2 uppercase letters.")) ∧
    (gptValidate (.str "hi") (.str "US") .none (.bool false) true .none =
      .ok ⟨["hi"], [.str "US"], [.none], [.bool false], true, .int 65⟩) :=
  ⟨(gpt_country_validation "Us" (fun _ _ => .ok .none)).1 (by decide) rfl,
   (gpt_country_validation "US" (fun _ _ => .ok .none)).2.1 rfl⟩

/-- C6: a provided timeout that is not a positive integer (in the Python
sense: not an `int` instance, or with value at most 0) raises
`ValidationError`; when the timeout is omitted (`None`), the timeout
forwarded to the delegate is 65 when `sync` is true and 30 when `sync` is
false, for every call that reaches the delegate. -/
theorem gpt_timeout_validation (t : PyVal) (s : String) (sync : Bool)
    (p c sp w : PyVal) (d : DelegateArgs → Nat → CallOutcome) :
    (t ≠ .none → (pyIsInt t = false ∨ pyIntVal t ≤ 0) →
      gpt (.str s) .none .none (.bool false) sync t d =
        .validationError "Timeout must be a positive integer.") ∧
    (∀ args, gptValidate p c sp w sync .none = .ok args →
      args.timeout = .int (if sync then 65 else 30)) := by
  constructor
  · intro hne hbad
    have htv : timeoutInvalid t = true := by
      cases t with
      | none => exact absurd rfl hne
      | bool b =>
        rcases hbad with hb | hb
        · simp [pyIsInt] at hb
        · simp [timeoutInvalid, hb]
      | int n =>
        rcases hbad with hb | hb
        · simp [pyIsInt] at hb
        · simp [timeoutInvalid, hb]
      | str s2 => simp [timeoutInvalid, pyIsInt]
      | list l => simp [timeoutInvalid, pyIsInt]
    simp [gpt, gptValidate, promptNorm, normalizeParam, checkAll, checkCountry,
      checkSecondary, checkWebSearch, pyTruthy, htv]
  · intro args h
    unfold gptValidate at h
    repeat' split at h
    all_goals first
      | exact Except.noConfusion h
      | (injection h with h2; rw [← h2]; rfl)

/-- Witness for C6 at `timeout=0` and at the default single-prompt call. -/
theorem gpt_timeout_validation_witness :
    (gpt (.str "hi") .none .none (.bool false) true (.int 0) (fun _ _ => .ok .none) =
      .validationError "Timeout must be a positive integer.") ∧
    (argsHi.timeout = .int 65) :=
  have h := gpt_timeout_validation (.int 0) "hi" true (.str "hi") .none .none
    (.bool false) (fun _ _ => .ok .none)
  ⟨h.1 (fun hn => nomatch hn) (Or.inr (by simp [pyIntVal])),
   h.2 argsHi gptValidate_hi⟩

theorem normalizeParam_scalar (p : PyVal) (name : String) (n : Nat)
    (hl : ∀ ys, p ≠ .list ys) :
    normalizeParam p name n = .ok (List.replicate n p) := by
  cases p with
  | list ys => exact absurd rfl (hl ys)
  | none => rfl
  | bool b => rfl
  | int m => rfl
  | str s => rfl

theorem checkWebSearch_error_of_nonbool (x : PyVal) (hb : ∀ b, x ≠ .bool b) :
    checkWebSearch x = .error (.validation "Web search flags must be boolean.") := by
  cases x with
  | bool b => exact absurd rfl (hb b)
  | none => rfl
  | int n => rfl
  | str s => rfl
  | list l => rfl

theorem checkAll_webSearch_replicate (x : PyVal) (hb : ∀ b, x ≠ .bool b)
    (n : Nat) (hn : n ≠ 0) :
    checkAll checkWebSearch (List.replicate n x) =
      .error (.validation "Web search flags must be boolean.") := by
  apply checkAll_error_of
  · intro y hy
    rw [List.eq_of_mem_replicate hy]
    exact Or.inr (checkWebSearch_error_of_nonbool x hb)
  · exact ⟨x, List.mem_replicate.mpr ⟨hn, rfl⟩, checkWebSearch_error_of_nonbool x hb⟩

theorem checkAll_webSearch_bad (ws : List PyVal) (h : ∃ x ∈ ws, ∀ b, x ≠ .bool b) :
    checkAll checkWebSearch ws =
      .error (.validation "Web search flags must be boolean.") := by
  rcases h with ⟨x, hx, hb⟩
  apply checkAll_error_of
  · intro y hy
    cases y with
    | bool b => exact Or.inl rfl
    | none => exact Or.inr rfl
    | int n => exact Or.inr rfl
    | str s => exact Or.inr rfl
    | list l => exact Or.inr rfl
  · exact ⟨x, hx, checkWebSearch_error_of_nonbool x hb⟩

theorem checkAll_ok_of_unit (f : PyVal → Except GptError Unit) (l : List PyVal)
    (u : Unit) (h : checkAll f l = .ok u) : ∀ x ∈ l, f x = .ok () := by
  cases u
  exact (checkAll_ok_iff f l).mp h

theorem webSearch_ok_bool (x : PyVal) (h : checkWebSearch x = .ok ()) :
    ∃ b, x = .bool b := by
  cases x with
  | bool b => exact ⟨b, rfl⟩
  | none => exact Except.noConfusion h
  | int n => exact Except.noConfusion h
  | str s => exact Except.noConfusion h
  | list l => exact Except.noConfusion h

/-- C7: every broadcast webSearch entry must be a strict boolean: a scalar
webSearch value that is not of boolean type, and a webSearch list
containing an entry that is not of boolean type (such as the integer 1 or
the string "true"), both raise `ValidationError` with no truthy coercion;
conversely every call that reaches the delegate carries only boolean
web-search entries. -/
theorem gpt_webSearch_strict_bool (w : PyVal) (ps : List String) (hps : ps ≠ [])
    (ws : List PyVal) (hlen : ws.length = ps.length) (p c sp wv t : PyVal)
    (sync : Bool) (d : DelegateArgs → Nat → CallOutcome) :
    ((∀ b, w ≠ .bool b) → (∀ ys, w ≠ .list ys) →
      gpt (.list (ps.map .str)) .none .none w true .none d =
        .validationError "Web search flags must be boolean.") ∧
    ((∃ x ∈ ws, ∀ b, x ≠ .bool b) →
      gpt (.list (ps.map .str)) .none .none (.list ws) true .none d =
        .validationError "Web search flags must be boolean.") ∧
    (∀ args, gptValidate p c sp wv sync t = .ok args →
      ∀ x ∈ args.web_searches, ∃ b, x = .bool b) := by
  have hn : ps.length ≠ 0 := fun h => hps (List.length_eq_zero.mp h)
  refine ⟨fun hb hl => ?_, fun hbad => ?_, fun args h => ?_⟩
  · cases w with
    | bool b => exact absurd rfl (hb b)
    | list ys => exact absurd rfl (hl ys)
    | none =>
      simp [gpt, gptValidate, promptNorm, asStrList_map_str, hps, normalizeParam,
        checkAll_replicate_ok checkCountry .none rfl,
        checkAll_replicate_ok checkSecondary .none rfl,
        checkAll_webSearch_replicate .none (fun b hb2 => nomatch hb2) ps.length hn]
    | int m =>
      simp [gpt, gptValidate, promptNorm, asStrList_map_str, hps, normalizeParam,
        checkAll_replicate_ok checkCountry .none rfl,
        checkAll_replicate_ok checkSecondary .none rfl,
        checkAll_webSearch_replicate (.int m) (fun b hb2 => nomatch hb2) ps.length hn]
    | str s =>
      simp [gpt, gptValidate, promptNorm, asStrList_map_str, hps, normalizeParam,
        checkAll_replicate_ok checkCountry .none rfl,
        checkAll_replicate_ok checkSecondary .none rfl,
        checkAll_webSearch_replicate (.str s) (fun b hb2 => nomatch hb2) ps.length hn]
  · simp [gpt, gptValidate, promptNorm, asStrList_map_str, hps, normalizeParam,
      hlen, checkAll_replicate_ok checkCountry .none rfl,
      checkAll_replicate_ok checkSecondary .none rfl,
      checkAll_webSearch_bad ws hbad]
  · unfold gptValidate at h
    repeat' split at h
    all_goals first
      | exact Except.noConfusion h
      | (injection h with h2; subst h2; intro x hx;
         exact webSearch_ok_bool x
           (checkAll_ok_of_unit checkWebSearch _ _ (by assumption) x hx))

/-- Witness for C7: the integer 1 as a scalar, the string "true" inside a
list, and the accepted default call. -/
theorem gpt_webSearch_strict_bool_witness :
    (gpt (.list [.str "a"]) .none .none (.int 1) true .none (fun _ _ => .ok .none) =
      .validationError "Web search flags must be boolean.") ∧
    (gpt (.list [.str "a"]) .none .none (.list [.str "true"]) true .none
        (fun _ _ => .ok .none) =
      .validationError "Web search flags must be boolean.") ∧
    (∀ x ∈ argsHi.web_searches, ∃ b, x = .bool b) :=
  have h := gpt_webSearch_strict_bool (.int 1) ["a"] (by simp) [.str "true"] rfl
    (.str "hi") .none .none (.bool false) .none true (fun _ _ => .ok .none)
  ⟨h.1 (fun b hb => nomatch hb) (fun ys hy => nomatch hy),
   h.2.1 ⟨.str "true", by simp, fun b hb => nomatch hb⟩,
   h.2.2 argsHi gptValidate_hi⟩

/-- C8: `web` raises three distinct error kinds before delegation and
succeeds otherwise: a `None` or empty-string query raises the empty/null
`ValueError`, a non-string non-list query such as 123 raises the
wrong-type `TypeError`, a list containing an empty element such as
`["", "ok"]` raises the invalid-list-element `ValueError`, and a list of
non-empty strings such as `["a", "b"]` is forwarded to the delegate
verbatim. -/
theorem web_error_taxonomy (c : Client) (se rf m co df : String) (ar pa : Bool)
    (zone mw t : PyVal) :
    (web c .none se zone rf m co df ar mw t pa = .error .emptyQuery) ∧
    (web c (.str "") se zone rf m co df ar mw t pa = .error .emptyQuery) ∧
    (web c (.int 123) se zone rf m co df ar mw t pa = .error .wrongType) ∧
    (web c (.list [.str "", .str "ok"]) se zone rf m co df ar mw t pa =
      .error .listQuery) ∧
    (web c (.list [.str "a", .str "b"]) se zone rf m co df ar mw t pa =
      .ok ⟨.list [.str "a", .str "b"], se,
           (if pyTruthy zone then zone else c.serp_zone), rf, m, co, df, ar,
           (if pyTruthy mw then mw else c.DEFAULT_MAX_WORKERS), t, pa⟩) ∧
    (WebError.emptyQuery ≠ WebError.wrongType) ∧
    (WebError.emptyQuery ≠ WebError.listQuery) ∧
    (WebError.wrongType ≠ WebError.listQuery) := by
  refine ⟨rfl, rfl, rfl, rfl, rfl, ?_, ?_, ?_⟩ <;> intro h <;> cases h

theorem retryAux_calls_bounds (d : Nat → CallOutcome) :
    1 ≤ (retryAux d 0 max_retries).2.1 ∧ (retryAux d 0 max_retries).2.1 ≤ 3 := by
  rcases h0 : d 0 with v | e | e <;>
    rcases h1 : d 1 with v1 | e1 | e1 <;>
    rcases h2 : d 2 with v2 | e2 | e2 <;>
    simp [retryAux, max_retries, h0, h1, h2]

/-- C9: for every `gpt` call, either validation passes and exactly one
(possibly retried, at most three invocations) delegate call sequence is
made, or a validation error is raised, the delegate is never invoked (the
outcome is the same for every delegate and involves zero delegate calls),
and no retry budget is consumed. -/
theorem gpt_no_partial_delegation (p c sp w t : PyVal) (sync : Bool)
    (d d2 : DelegateArgs → Nat → CallOutcome) :
    (∀ e, gptValidate p c sp w sync t = .error e →
      resultCalls (gpt p c sp w sync t d) = 0 ∧
        gpt p c sp w sync t d = gpt p c sp w sync t d2) ∧
    (∀ args, gptValidate p c sp w sync t = .ok args →
      1 ≤ resultCalls (gpt p c sp w sync t d) ∧
        resultCalls (gpt p c sp w sync t d) ≤ 3) := by
  constructor
  · intro e he
    cases e with
    | validation msg => simp [gpt, he, resultCalls]
    | typeErr => simp [gpt, he, resultCalls]
  · intro args ha
    have hb := retryAux_calls_bounds (d args)
    rcases hr : retryAux (d args) 0 max_retries with ⟨r, n, s⟩
    rw [hr] at hb
    simp only at hb
    cases r <;> simp [gpt, ha, hr, resultCalls] <;> exact hb

/-- Witness for C9: an invalid prompt makes the outcome independent of the
delegate with zero calls; a valid call makes between one and three calls. -/
theorem gpt_no_partial_delegation_witness :
    (resultCalls (gpt .none .none .none (.bool false) true .none
        (fun _ _ => .ok .none)) = 0 ∧
      gpt .none .none .none (.bool false) true .none (fun _ _ => .ok .none) =
        gpt .none .none .none (.bool false) true .none (fun _ _ => .apiError 1)) ∧
    (1 ≤ resultCalls (gpt (.str "hi") .none .none (.bool false) true .none
        (fun _ _ => .ok .none)) ∧
      resultCalls (gpt (.str "hi") .none .none (.bool false) true .none
        (fun _ _ => .ok .none)) ≤ 3) :=
  ⟨(gpt_no_partial_delegation .none .none .none (.bool false) .none true
      (fun _ _ => .ok .none) (fun _ _ => .apiError 1)).1
      (.validation promptErrMsg) rfl,
   (gpt_no_partial_delegation (.str "hi") .none .none (.bool false) .none true
      (fun _ _ => .ok .none) (fun _ _ => .apiError 1)).2
      argsHi gptValidate_hi⟩

theorem web_ok_zone_workers (c : Client) (q zone mw t : PyVal)
    (se rf m co df : String) (ar pa : Bool) (args : WebArgs)
    (h : web c q se zone rf m co df ar mw t pa = .ok args) :
    args.zone = (if pyTruthy zone then zone else c.serp_zone) ∧
    args.max_workers = (if pyTruthy mw then mw else c.DEFAULT_MAX_WORKERS) := by
  unfold web at h
  repeat' split at h
  all_goals first
    | exact Except.noConfusion h
    | (injection h with h2; rw [← h2]; constructor <;> simp [*])

/-- C10: in `web`, a falsy zone argument (`None` or the empty string) is
replaced by the client configured `serp_zone` and a falsy `max_workers`
argument (`None` or 0) is replaced by the client `DEFAULT_MAX_WORKERS`,
before query validation runs (the defaulting is independent of the query);
non-falsy values are forwarded to the delegate as given. -/
theorem web_zone_worker_defaults (c : Client) (q zone mw t : PyVal)
    (se rf m co df : String) (ar pa : Bool) :
    (∀ args, web c q se zone rf m co df ar mw t pa = .ok args →
      args.zone = (if pyTruthy zone then zone else c.serp_zone) ∧
      args.max_workers = (if pyTruthy mw then mw else c.DEFAULT_MAX_WORKERS)) ∧
    (web c q se .none rf m co df ar .none t pa =
      web c q se (.str "") rf m co df ar (.int 0) t pa) ∧
    (pyTruthy zone = true → pyTruthy mw = true →
      ∀ args, web c q se zone rf m co df ar mw t pa = .ok args →
        args.zone = zone ∧ args.max_workers = mw) := by
  refine ⟨fun args h => web_ok_zone_workers c q zone mw t se rf m co df ar pa args h,
    rfl, fun hz hm args h => ?_⟩
  have h2 := web_ok_zone_workers c q zone mw t se rf m co df ar pa args h
  rw [hz, hm] at h2
  simpa using h2

/-- Witness for C10: a client with zone "z" and 4 workers, once with falsy
arguments and once with explicit overrides. -/
theorem web_zone_worker_defaults_witness :
    ((⟨.str "a", "google", .str "z", "raw", "GET", "", "html", false, .int 4,
        .none, false⟩ : WebArgs).zone =
        (if pyTruthy PyVal.none then PyVal.none else PyVal.str "z") ∧
      (⟨.str "a", "google", .str "z", "raw", "GET", "", "html", false, .int 4,
        .none, false⟩ : WebArgs).max_workers =
        (if pyTruthy PyVal.none then PyVal.none else PyVal.int 4)) ∧
    ((⟨.str "a", "google", .str "zz", "raw", "GET", "", "html", false, .int 9,
        .none, false⟩ : WebArgs).zone = .str "zz" ∧
      (⟨.str "a", "google", .str "zz", "raw", "GET", "", "html", false, .int 9,
        .none, false⟩ : WebArgs).max_workers = .int 9) :=
  ⟨(web_zone_worker_defaults ⟨.str "z", .int 4⟩ (.str "a") .none .none .none
      "google" "raw" "GET" "" "html" false false).1
      ⟨.str "a", "google", .str "z", "raw", "GET", "", "html", false, .int 4,
        .none, false⟩ rfl,
   (web_zone_worker_defaults ⟨.str "z", .int 4⟩ (.str "a") (.str "zz") (.int 9)
      .none "google" "raw" "GET" "" "html" false false).2.2 rfl rfl
      ⟨.str "a", "google", .str "zz", "raw", "GET", "", "html", false, .int 9,
        .none, false⟩ rfl⟩
